import Mathlib

/-!
Verification of the weewx-rmi data fetcher (src/bin/user/rmi.py).

The Python module is shallowly embedded here:

* Python dicts become association lists `List (String × β)` with
  first-match lookup (`dictGet`, modelling `dict.get`) and
  replace-or-append assignment (`dictSet`, modelling `d[k] = v`);
  Python dicts have unique keys, which theorems state as a `Nodup`
  hypothesis on the key list where needed.
* Scalar payload values become `Val` (a string or a rational number;
  rationals stand for Python ints/floats, exact on the small decimal
  values the claims exercise).  A packet entry of Python `None` is the
  value `none` of `Option Val`.
* The network environment of `RMIDataFetcher.get_weather_packet` is
  passed explicitly: whether `refresh_forecasts_coord` succeeds, the
  current weather payload, the radar-forecast sequence (with the
  `datetime` field already parsed to an epoch timestamp, as
  `datetime.strptime(...).timestamp()` does) and the wall-clock `now`
  (`time.time()`).
* Effects on the aiohttp session and the logger are recorded in an
  explicit event trace (`Event`).
* Exceptions that escape the function (the `IndexError` of
  `forecasts[0]` on an empty sequence) are `Except.error`.
-/

namespace RMI

/-- Scalar values of the upstream payloads: Python strings and numbers
(ints and floats are both modelled as rationals). -/
inductive Val
  | str : String → Val
  | num : ℚ → Val
  deriving DecidableEq

/-- First-match lookup in an association list; models Python
`d.get(k)` (returns `none` when the key is absent). -/
def dictGet {β : Type} : List (String × β) → String → Option β
  | [], _ => none
  | p :: rest, k => if p.1 = k then some p.2 else dictGet rest k

/-- Replace-or-append assignment in an association list; models Python
`d[k] = v` on a dict (unique keys). -/
def dictSet {β : Type} : List (String × β) → String → β → List (String × β)
  | [], k, v => [(k, v)]
  | p :: rest, k, v => if p.1 = k then (k, v) :: rest else p :: dictSet rest k v

/-- The class attribute `RMIDataFetcher.DEFAULT_FIELD_MAP`. -/
def DEFAULT_FIELD_MAP : List (String × String) :=
  [("barometer", "pressure"),
   ("outTemp", "temperature"),
   ("windSpeed", "wind_speed"),
   ("windGust", "wind_speed_gust"),
   ("windDir", "wind_bearing"),
   ("cloudcover", "condition")]

/-- `RMIDataFetcher.get_cloud_cover`: the three-bucket cloud-cover
heuristic.  The argument is `weather.get(rmi_field)`, so it may be
absent (`none`) or a non-string value; Python `in` comparison against
the string lists is modelled by equality with the corresponding
`Val.str` values. -/
def get_cloud_cover (condition : Option Val) : Nat :=
  if condition = some (Val.str "sunny") ∨ condition = some (Val.str "clear-night") then 0
  else if condition = some (Val.str "cloudy") then 50
  else 100

/-- The body of the field-map loop in `get_weather_packet`: the value
stored for one `(weewx_field, rmi_field)` pair.  The special source
name `condition` triggers the cloud-cover derivation (stored as the
number `get_cloud_cover` returns); every other source name is copied
verbatim from the weather payload (`none` when absent). -/
def packetEntry (weather : List (String × Val)) (p : String × String) : Option Val :=
  if p.2 = "condition" then some (Val.num (get_cloud_cover (dictGet weather p.2)))
  else dictGet weather p.2

/-- The field-map loop of `get_weather_packet`: starting from the empty
`packet = dict()`, assign `packet[weewx_field]` for each pair of
`self._obs_map` in iteration order. -/
def buildPacket (obsMap : List (String × String)) (weather : List (String × Val)) :
    List (String × Option Val) :=
  obsMap.foldl (fun pkt p => dictSet pkt p.1 (packetEntry weather p)) []

/-- One point of `client.get_radar_forecast()`: the `datetime` field
already parsed to an epoch timestamp, and the `native_precipitation`
field (a 10-minute precipitation amount). -/
structure ForecastPoint where
  timestamp : Int
  native_precipitation : ℚ
  deriving DecidableEq

/-- The rain-rate scan of `get_weather_packet`, after `prev` has been
initialised to `forecasts[0]`: walk the sequence; at the first point
whose timestamp is strictly greater than `now`, yield
`prev.get(\x22native_precipitation\x22) * 6` and stop; otherwise move `prev`
forward.  Yields `none` when the loop finishes without a break, in
which case no `rainRate` key is assigned. -/
def rainRateAux (now : Int) : ForecastPoint → List ForecastPoint → Option ℚ
  | _, [] => none
  | prev, f :: rest =>
    if now < f.timestamp then some (prev.native_precipitation * 6)
    else rainRateAux now f rest

/-- Observable side effects of one `get_weather_packet` call: creating
the aiohttp session, awaiting `session.close()`, and the error log in
the `except` branch. -/
inductive Event
  | openSession
  | closeSession
  | logError
  deriving DecidableEq

/-- `RMIDataFetcher.get_weather_packet`.  Arguments model the
environment of the call: `refreshOk` is whether
`client.refresh_forecasts_coord` (and the `session.close()` right
after it, both inside the `try`) succeeds; `weather` is
`client.get_current_weather(...)`; `forecasts` is
`client.get_radar_forecast()`; `now` is `time.time()`.  The result is
the returned packet (or the uncaught exception, as `Except.error`)
paired with the trace of session/log events.  On refresh failure the
`except` branch logs and returns an empty dict without closing the
session; on success the session is closed before the packet is built;
`prev = forecasts[0]` raises `IndexError` on an empty sequence. -/
def get_weather_packet (obsMap : List (String × String)) (refreshOk : Bool)
    (weather : List (String × Val)) (forecasts : List ForecastPoint) (now : Int) :
    Except String (List (String × Option Val)) × List Event :=
  match refreshOk, forecasts with
  | false, _ => (Except.ok [], [Event.openSession, Event.logError])
  | true, [] => (Except.error ("IndexError"), [Event.openSession, Event.closeSession])
  | true, f :: rest =>
    match rainRateAux now f (f :: rest) with
    | some r =>
      (Except.ok (dictSet (buildPacket obsMap weather) ("rainRate") (some (Val.num r))),
       [Event.openSession, Event.closeSession])
    | none =>
      (Except.ok (buildPacket obsMap weather),
       [Event.openSession, Event.closeSession])

/-- `dict.update(ext)`: assign each pair of `ext` into `d` in
iteration order (overriding duplicate keys, appending new ones). -/
def dictUpdate (d ext : List (String × String)) : List (String × String) :=
  ext.foldl (fun acc p => dictSet acc p.1 p.2) d

/-- `RMIDataFetcher.default_field_map`: returns the class dictionary
`RMIDataFetcher.DEFAULT_FIELD_MAP` itself, not a copy.  In this
state-passing embedding the class attribute is the explicit argument
`classMap`, and returning the dictionary itself means that an update
of the returned map is an update of the class state. -/
def default_field_map (classMap : List (String × String)) : List (String × String) :=
  classMap

/-- The obs-map part of `RMIDataFetcher.__init__`: pop `field_map`
(`none` when absent) and `field_map_extensions` (`[]` when absent)
from the configuration, fall back to `default_field_map()` when
`field_map` is absent, then `obs_map.update(obs_map_ext)`.  The result
is `(self._obs_map, class map after construction)`: because
`default_field_map` returns the class dictionary itself, the in-place
`update` in the absent-`field_map` case is visible in the returned
class state. -/
def fetcherInitObsMap (classMap : List (String × String))
    (fieldMap : Option (List (String × String))) (ext : List (String × String)) :
    List (String × String) × List (String × String) :=
  match fieldMap with
  | none =>
    let m := dictUpdate (default_field_map classMap) ext
    (m, m)
  | some fm => (dictUpdate fm ext, classMap)

/-- Outcomes of `RMIService.__init__` in the embedding: which event
was bound, or the early return of the disabled case. -/
inductive BindingResult
  | loopBound
  | archiveBound
  | disabled
  deriving DecidableEq

/-- The binding/enable logic of `RMIService.__init__`:
`binding = config.get(\x22binding\x22, \x22loop\x22)`,
`enable = config.get(\x22enable\x22, True)`; when not enabled, log and
return early (before any binding validation); otherwise bind on
`loop`/`archive`, and raise `ValueError` on any other binding value.
`Except.error` models the raised `ValueError` with its message. -/
def serviceInit (bindingCfg : Option String) (enableCfg : Option Bool) :
    Except String BindingResult :=
  let binding := bindingCfg.getD "loop"
  let enable := enableCfg.getD true
  if !enable then Except.ok BindingResult.disabled
  else if binding = "loop" then Except.ok BindingResult.loopBound
  else if binding = "archive" then Except.ok BindingResult.archiveBound
  else Except.error ("Unknown binding: " ++ binding)

/-- Python truthiness of a scalar payload value: `0`, `0.0` and the
empty string are falsy, every other number or string is truthy. -/
def truthy : Val → Bool
  | Val.num q => decide (q ≠ 0)
  | Val.str s => decide (s ≠ "")

/-- The digits-only value of a character list, used by the `float()`
model: `none` unless the list is non-empty and all digits. -/
def digitsVal (cs : List Char) : Option Nat :=
  if !cs.isEmpty && cs.all (fun c => c.isDigit) then
    some (cs.foldl (fun n c => 10 * n + (c.toNat - 48)) 0)
  else none

/-- Models Python `float()` on the simple decimal literals this driver
sees: an optional leading minus sign, digits, and an optional
fractional part.  Scientific notation and the other exotic forms
`float()` accepts are out of scope; strings outside this grammar
parse to `none` (a raised `ValueError`). -/
def parseFloat (s : String) : Option ℚ :=
  let signAndBody : ℚ × List Char :=
    match s.toList with
    | '-' :: rest => (-1, rest)
    | l => (1, l)
  match signAndBody.2.span (fun c => c != '.') with
  | (intPart, []) => (digitsVal intPart).map (fun n => signAndBody.1 * (n : ℚ))
  | (intPart, _ :: fracPart) =>
    match digitsVal intPart, digitsVal fracPart with
    | some i, some fr =>
      some (signAndBody.1 * ((i : ℚ) + (fr : ℚ) / ((10 : ℚ) ^ fracPart.length)))
    | _, _ => none

/-- `float(v)` on a payload value: a number converts to itself, a
string is parsed; an unparsable string raises `ValueError`. -/
def pyFloat (v : Val) : Except String ℚ :=
  match v with
  | Val.num q => Except.ok q
  | Val.str s =>
    match parseFloat s with
    | some q => Except.ok q
    | none => Except.error ("ValueError")

/-- `_get_as_float(data, key)` (module-level helper): `v = None`;
`if key in data and data.get(key):` try `float(data[key])`, and on
`ValueError` log and leave `v = None`.  A key that is absent, or
present with a falsy value (Python `None`, `0`, `0.0`, `\x22\x22`),
yields `none`. -/
def get_as_float (data : List (String × Option Val)) (key : String) : Option ℚ :=
  match dictGet data key with
  | none => none
  | some none => none
  | some (some v) =>
    if truthy v then
      match pyFloat v with
      | Except.ok q => some q
      | Except.error _ => none
    else none

/-- The packet-filling loop of `RMIDriver.genLoopPackets`: for each key
of the fetched data, `_packet[vname] = _get_as_float(data, vname)`.
The fixed `dateTime`/`usUnits` entries the driver adds first are the
caller-side timestamp and unit tag and are not part of this map. -/
def genLoopPacket (data : List (String × Option Val)) : List (String × Option ℚ) :=
  data.foldl (fun pkt p => dictSet pkt p.1 (get_as_float data p.1)) []

/-! ### Association-list lemmas -/

lemma dictGet_dictSet_self {β : Type} (d : List (String × β)) (k : String) (v : β) :
    dictGet (dictSet d k v) k = some v := by
  induction d with
  | nil => simp [dictSet, dictGet]
  | cons p rest ih =>
    by_cases h : p.1 = k
    · simp [dictSet, h, dictGet]
    · simp [dictSet, h, dictGet, ih]

lemma dictGet_dictSet_ne {β : Type} (d : List (String × β)) (k k2 : String) (v : β)
    (h : k2 ≠ k) : dictGet (dictSet d k2 v) k = dictGet d k := by
  induction d with
  | nil => simp [dictSet, dictGet, h]
  | cons p rest ih =>
    by_cases hp : p.1 = k2
    · simp [dictSet, hp, dictGet, h, ih]
    · simp [dictSet, hp, dictGet, ih]

/-- A fold of assignments over pairs whose keys avoid `k` leaves the
lookup of `k` unchanged. -/
lemma foldSet_notMem {β γ : Type} (e : String × γ → β) (l : List (String × γ))
    (acc : List (String × β)) (k : String) (hk : k ∉ l.map Prod.fst) :
    dictGet (l.foldl (fun a p => dictSet a p.1 (e p)) acc) k = dictGet acc k := by
  induction l generalizing acc with
  | nil => simp
  | cons p rest ih =>
    simp only [List.map_cons, List.mem_cons] at hk
    push_neg at hk
    simp only [List.foldl_cons]
    rw [ih (dictSet acc p.1 (e p)) hk.2, dictGet_dictSet_ne acc k p.1 (e p) (Ne.symm hk.1)]

/-- A fold of assignments over pairs with `Nodup` keys assigns each
pair once: the lookup of a member key is its computed entry. -/
lemma foldSet_mem {β γ : Type} (e : String × γ → β) :
    ∀ (l : List (String × γ)) (w : String) (r : γ),
      (l.map Prod.fst).Nodup → (w, r) ∈ l →
      ∀ acc : List (String × β),
        dictGet (l.foldl (fun a p => dictSet a p.1 (e p)) acc) w = some (e (w, r)) := by
  intro l
  induction l with
  | nil => intro w r _ hmem; cases hmem
  | cons p rest ih =>
    intro w r hnd hmem acc
    simp only [List.map_cons, List.nodup_cons] at hnd
    rcases List.mem_cons.mp hmem with heq | hmem2
    · subst heq
      simp only [List.foldl_cons]
      rw [foldSet_notMem e rest (dictSet acc w (e (w, r))) w hnd.1,
        dictGet_dictSet_self]
    · simp only [List.foldl_cons]
      exact ih w r hnd.2 hmem2 (dictSet acc p.1 (e p))

/-! ### Rain-rate scan lemmas -/

/-- When every remaining point is at or before `now`, the scan finds no
future point and yields nothing. -/
lemma rainRateAux_none (now : Int) (l : List ForecastPoint)
    (hpast : ∀ g ∈ l, g.timestamp ≤ now) :
    ∀ prev, rainRateAux now prev l = none := by
  induction l with
  | nil => intro prev; rfl
  | cons f rest ih =>
    intro prev
    have hf : f.timestamp ≤ now := hpast f (List.mem_cons_self f rest)
    have : ¬ now < f.timestamp := not_lt.mpr hf
    simp only [rainRateAux, if_neg this]
    exact ih (fun g hg => hpast g (List.mem_cons_of_mem f hg)) f

/-- The last element of a list, with a default for the empty list;
mirrors how `prev` tracks the most recently visited point. -/
def lastD : List ForecastPoint → ForecastPoint → ForecastPoint
  | [], d => d
  | p :: rest, _ => lastD rest p

lemma lastD_concat (l : List ForecastPoint) (p d : ForecastPoint) :
    lastD (l ++ [p]) d = p := by
  induction l generalizing d with
  | nil => rfl
  | cons q rest ih => simpa [lastD] using ih q

/-- When the scanned list splits as past points followed by a strictly
future point, the scan stops there and yields six times the
precipitation of the last past point (or of the incoming `prev` when
there is no past point). -/
lemma rainRateAux_found (now : Int) (qs : List ForecastPoint) (f : ForecastPoint)
    (rest : List ForecastPoint) (hpast : ∀ g ∈ qs, g.timestamp ≤ now)
    (hfut : now < f.timestamp) :
    ∀ prev, rainRateAux now prev (qs ++ f :: rest) =
      some ((lastD qs prev).native_precipitation * 6) := by
  induction qs with
  | nil =>
    intro prev
    simp [rainRateAux, hfut, lastD]
  | cons q qs2 ih =>
    intro prev
    have hq : q.timestamp ≤ now := hpast q (List.mem_cons_self q qs2)
    have : ¬ now < q.timestamp := not_lt.mpr hq
    simp only [List.cons_append, rainRateAux, if_neg this, lastD]
    exact ih (fun g hg => hpast g (List.mem_cons_of_mem q hg)) q

/-- Keys never assigned by the field-map loop are absent from the
built packet. -/
lemma dictGet_buildPacket_notMem (obsMap : List (String × String))
    (weather : List (String × Val)) (k : String) (hk : k ∉ obsMap.map Prod.fst) :
    dictGet (buildPacket obsMap weather) k = none := by
  unfold buildPacket
  rw [foldSet_notMem (packetEntry weather) obsMap [] k hk]
  rfl

/-! ### Claims -/

/-- Claim C1 (counterexample): for the forecast sequence
`[(10, 1.0), (20, 2.0)]` with `now = 100` (both points in the past),
the claim asserts the returned record contains the rain-rate key with
value `2.0 × 6 = 12.0`; in fact the loop never finds a strictly
future point, never executes the `break` branch that assigns
`packet[\x22rainRate\x22]`, and the returned record has no rain-rate
key at all. -/
theorem claim_C1_counterexample :
    ((10 : Int) ≤ 100 ∧ (20 : Int) ≤ 100) ∧
    ((get_weather_packet DEFAULT_FIELD_MAP true [] [⟨10, 1⟩, ⟨20, 2⟩] 100).1.toOption.map
      (fun pkt => dictGet pkt ("rainRate"))) = some none := by
  exact ⟨⟨by decide, by decide⟩, by decide⟩

/-- Claim C1 (amended): for every non-empty forecast sequence whose
points all have timestamps at or before `now` (and a field map that
does not itself output a `rainRate` field), fetch returns the
field-map packet unchanged and the record contains no rain-rate key:
the `rainRate` assignment happens only inside the break branch, which
is reached only when some point has a strictly future timestamp. -/
theorem claim_C1_amended (obsMap : List (String × String)) (weather : List (String × Val))
    (f0 : ForecastPoint) (fs : List ForecastPoint) (now : Int)
    (hmap : ("rainRate") ∉ obsMap.map Prod.fst)
    (hpast : ∀ g ∈ f0 :: fs, g.timestamp ≤ now) :
    (get_weather_packet obsMap true weather (f0 :: fs) now).1 =
      Except.ok (buildPacket obsMap weather) ∧
    dictGet (buildPacket obsMap weather) ("rainRate") = none := by
  have hnone := rainRateAux_none now (f0 :: fs) hpast f0
  constructor
  · simp only [get_weather_packet, hnone]
  · exact dictGet_buildPacket_notMem obsMap weather _ hmap

/-- Claim C1 witness: the amended theorem at the counterexample's
concrete input. -/
theorem claim_C1_witness :
    dictGet (buildPacket DEFAULT_FIELD_MAP []) ("rainRate") = none ∧
    (get_weather_packet DEFAULT_FIELD_MAP true [] [⟨10, 1⟩, ⟨20, 2⟩] 100).1 =
      Except.ok (buildPacket DEFAULT_FIELD_MAP []) := by
  have h := claim_C1_amended DEFAULT_FIELD_MAP [] ⟨10, 1⟩ [⟨20, 2⟩] 100 (by decide) (by decide)
  exact ⟨h.2, h.1⟩

/-- Claim C2: when the forecast sequence splits as some points at or
before `now`, ending in `p`, followed by a strictly future point `f`,
the scan stops at `f` and the returned record maps `rainRate` to
`p.native_precipitation × 6`, where `p` is the point immediately
preceding the first strictly future point. -/
theorem claim_C2 (obsMap : List (String × String)) (weather : List (String × Val))
    (ps : List ForecastPoint) (p f : ForecastPoint) (rest : List ForecastPoint) (now : Int)
    (hpast : ∀ g ∈ ps ++ [p], g.timestamp ≤ now) (hfut : now < f.timestamp) :
    (get_weather_packet obsMap true weather (ps ++ p :: f :: rest) now).1 =
      Except.ok (dictSet (buildPacket obsMap weather) ("rainRate")
        (some (Val.num (p.native_precipitation * 6)))) ∧
    (get_weather_packet obsMap true weather (ps ++ p :: f :: rest) now).1.toOption.map
      (fun pkt => dictGet pkt ("rainRate")) =
      some (some (some (Val.num (p.native_precipitation * 6)))) := by
  have hkey : ∀ prev, rainRateAux now prev (ps ++ p :: f :: rest) =
      some (p.native_precipitation * 6) := by
    intro prev
    have h2 := rainRateAux_found now (ps ++ [p]) f rest hpast hfut prev
    rw [lastD_concat] at h2
    rw [List.append_assoc] at h2
    simpa using h2
  have h1 : (get_weather_packet obsMap true weather (ps ++ p :: f :: rest) now).1 =
      Except.ok (dictSet (buildPacket obsMap weather) ("rainRate")
        (some (Val.num (p.native_precipitation * 6)))) := by
    cases ps with
    | nil =>
      have hk := hkey p
      simp only [List.nil_append] at hk ⊢
      simp only [get_weather_packet, hk]
    | cons q ps2 =>
      have hk := hkey q
      simp only [List.cons_append] at hk ⊢
      simp only [get_weather_packet, hk]
  refine ⟨h1, ?_⟩
  rw [h1]
  simp [Except.toOption, dictGet_dictSet_self]

/-- Claim C2 witness: the sequence `[(0, 1.0), (50, 2.0), (200, 3.0)]`
with `now = 100` yields rain-rate `2.0 × 6 = 12.0`. -/
theorem claim_C2_witness :
    (get_weather_packet DEFAULT_FIELD_MAP true [] [⟨0, 1⟩, ⟨50, 2⟩, ⟨200, 3⟩] 100).1.toOption.map
      (fun pkt => dictGet pkt ("rainRate")) = some (some (some (Val.num 12))) := by
  have h := (claim_C2 DEFAULT_FIELD_MAP [] [⟨0, 1⟩] ⟨50, 2⟩ ⟨200, 3⟩ [] 100
    (by decide) (by decide)).2
  have e : ((⟨50, 2⟩ : ForecastPoint).native_precipitation * 6 : ℚ) = 12 := by
    show (2 : ℚ) * 6 = 12
    norm_num
  rw [e] at h
  exact h

/-- Claim C3 (counterexample): on an empty forecast sequence the claim
asserts fetch returns the assembled record without a rain-rate key
and raises no error; in fact `prev = forecasts[0]` raises
`IndexError`, which is not caught inside `get_weather_packet`, so no
record is returned. -/
theorem claim_C3_counterexample :
    (get_weather_packet DEFAULT_FIELD_MAP true [] [] 0).1 = Except.error ("IndexError") := rfl

/-- Claim C3 (amended): for every empty forecast sequence (with the
upstream refresh succeeding), fetch raises `IndexError` at
`forecasts[0]` instead of returning a record; the exception escapes
`get_weather_packet` and is caught only by the caller. -/
theorem claim_C3_amended (obsMap : List (String × String)) (weather : List (String × Val))
    (now : Int) :
    (get_weather_packet obsMap true weather [] now).1 = Except.error ("IndexError") := rfl

/-- Claim C4: `get_cloud_cover` is a pure total function: `sunny` and
`clear-night` map to 0, `cloudy` maps to 50, and every other value —
including the absent code `none`, the empty string and non-string
values — maps to 100. -/
theorem claim_C4 :
    get_cloud_cover (some (Val.str "sunny")) = 0 ∧
    get_cloud_cover (some (Val.str "clear-night")) = 0 ∧
    get_cloud_cover (some (Val.str "cloudy")) = 50 ∧
    ∀ c : Option Val,
      c ∉ [some (Val.str "sunny"), some (Val.str "clear-night"), some (Val.str "cloudy")] →
      get_cloud_cover c = 100 := by
  refine ⟨by decide, by decide, by decide, ?_⟩
  intro c hc
  have h1 : c ≠ some (Val.str "sunny") := fun h => hc (by simp [h])
  have h2 : c ≠ some (Val.str "clear-night") := fun h => hc (by simp [h])
  have h3 : c ≠ some (Val.str "cloudy") := fun h => hc (by simp [h])
  simp [get_cloud_cover, h1, h2, h3]

/-- Claim C4 witness: the catch-all bucket at the absent code and at
the empty string. -/
theorem claim_C4_witness :
    get_cloud_cover none = 100 ∧ get_cloud_cover (some (Val.str "")) = 100 :=
  ⟨claim_C4.2.2.2 none (by decide), claim_C4.2.2.2 (some (Val.str "")) (by decide)⟩

/-- Claim C5: for every pair of a field map with unique output names,
the packet maps the output name to the entry computed from the source
name: the cloud-cover bucket of the current condition code when the
source name is the special `condition` marker, and otherwise the
value copied verbatim from the current-conditions payload, with an
absent source key stored as null (`none`); the builder is a total
function, so no exception is raised. -/
theorem claim_C5 (obsMap : List (String × String)) (weather : List (String × Val))
    (w r : String) (hnd : (obsMap.map Prod.fst).Nodup) (hmem : (w, r) ∈ obsMap) :
    dictGet (buildPacket obsMap weather) w = some (packetEntry weather (w, r)) ∧
    (r = "condition" →
      packetEntry weather (w, r) =
        some (Val.num (get_cloud_cover (dictGet weather ("condition"))))) ∧
    (r ≠ "condition" → packetEntry weather (w, r) = dictGet weather r) := by
  refine ⟨?_, ?_, ?_⟩
  · unfold buildPacket
    exact foldSet_mem (packetEntry weather) obsMap w r hnd hmem []
  · intro hr
    subst hr
    simp [packetEntry]
  · intro hr
    simp [packetEntry, hr]

/-- Claim C5 witness: with field map
`[(cloudcover, condition), (outTemp, temperature)]` and current
conditions `[(condition, cloudy)]`, the packet maps `cloudcover` to
the number 50 (not a copy of the raw string) and `outTemp` to null. -/
theorem claim_C5_witness :
    dictGet (buildPacket [("cloudcover", "condition"), ("outTemp", "temperature")]
      [("condition", Val.str "cloudy")]) ("cloudcover") = some (some (Val.num 50)) ∧
    dictGet (buildPacket [("cloudcover", "condition"), ("outTemp", "temperature")]
      [("condition", Val.str "cloudy")]) ("outTemp") = some none := by
  constructor
  · rw [(claim_C5 [("cloudcover", "condition"), ("outTemp", "temperature")]
      [("condition", Val.str "cloudy")] "cloudcover" "condition" (by decide) (by decide)).1]
    decide
  · rw [(claim_C5 [("cloudcover", "condition"), ("outTemp", "temperature")]
      [("condition", Val.str "cloudy")] "outTemp" "temperature" (by decide) (by decide)).1]
    decide

/-- Claim C6: when the upstream refresh fails (any network or protocol
failure inside the `try`), fetch logs the failure and returns the
empty record as a normal value — no exception escapes. -/
theorem claim_C6 (obsMap : List (String × String)) (weather : List (String × Val))
    (forecasts : List ForecastPoint) (now : Int) :
    (get_weather_packet obsMap false weather forecasts now).1 = Except.ok [] ∧
    (get_weather_packet obsMap false weather forecasts now).2 =
      [Event.openSession, Event.logError] :=
  ⟨rfl, rfl⟩

/-- Claim C7 (counterexample): on the upstream-error exit path the
claim asserts the session is closed; in fact the `except` branch logs
and returns the empty dict without ever reaching `session.close()`,
so the event trace of a failed fetch contains no close event. -/
theorem claim_C7_counterexample :
    (get_weather_packet DEFAULT_FIELD_MAP false [] [] 0).2 =
      [Event.openSession, Event.logError] ∧
    Event.closeSession ∉ (get_weather_packet DEFAULT_FIELD_MAP false [] [] 0).2 := by
  decide

/-- Claim C7 (amended): the session opened by fetch is closed on the
success path of the refresh (including the runs that subsequently
raise `IndexError`, since `session.close()` precedes the forecast
processing), but on the upstream-error path the `except` branch
returns without closing the session. -/
theorem claim_C7_amended (obsMap : List (String × String)) (weather : List (String × Val))
    (forecasts : List ForecastPoint) (now : Int) :
    Event.closeSession ∈ (get_weather_packet obsMap true weather forecasts now).2 ∧
    Event.closeSession ∉ (get_weather_packet obsMap false weather forecasts now).2 := by
  constructor
  · cases forecasts with
    | nil => simp [get_weather_packet]
    | cons f rest =>
      cases h : rainRateAux now f (f :: rest) with
      | none => simp [get_weather_packet, h]
      | some r => simp [get_weather_packet, h]
  · simp [get_weather_packet]

/-- Claim C8 (counterexample): with `enable = false` and the invalid
binding value `frob`, the claim asserts service construction raises a
configuration error; in fact `__init__` returns early at the
disabled check, before any binding validation, and construction
succeeds. -/
theorem claim_C8_counterexample :
    ("frob" ≠ "loop") ∧ ("frob" ≠ "archive") ∧
    serviceInit (some "frob") (some false) = Except.ok BindingResult.disabled :=
  ⟨by decide, by decide, rfl⟩

/-- Claim C8 (amended): provided the service is enabled, every binding
value other than `loop` or `archive` makes construction raise
`ValueError`, and `loop` and `archive` are accepted; when `enable` is
false, construction returns early without validating the binding. -/
theorem claim_C8_amended (b : String) :
    (b ≠ "loop" → b ≠ "archive" →
      serviceInit (some b) (some true) = Except.error ("Unknown binding: " ++ b)) ∧
    serviceInit (some "loop") (some true) = Except.ok BindingResult.loopBound ∧
    serviceInit (some "archive") (some true) = Except.ok BindingResult.archiveBound ∧
    serviceInit (some b) (some false) = Except.ok BindingResult.disabled := by
  refine ⟨?_, rfl, rfl, rfl⟩
  intro h1 h2
  simp [serviceInit, h1, h2]

/-- Claim C8 witness: the amended theorem at the concrete binding
value `frobnicate`. -/
theorem claim_C8_witness :
    serviceInit (some "frobnicate") (some true) =
      Except.error ("Unknown binding: " ++ "frobnicate") ∧
    serviceInit (some "loop") (some true) = Except.ok BindingResult.loopBound :=
  ⟨(claim_C8_amended "frobnicate").1 (by decide) (by decide),
   (claim_C8_amended "frobnicate").2.1⟩

/-- Claim C9 (counterexample): the extensions map
`[(outTemp, temperature)]` is non-empty, yet constructing a fetcher
with it (and no explicit field map) leaves the shared default table
with exactly its previous contents, because the single extension
entry repeats a binding the table already has; the claim's assertion
that a non-empty extensions map never leaves the default table
unchanged is false. -/
theorem claim_C9_counterexample :
    ([("outTemp", "temperature")] ≠ ([] : List (String × String))) ∧
    (fetcherInitObsMap DEFAULT_FIELD_MAP none [("outTemp", "temperature")]).2 =
      DEFAULT_FIELD_MAP :=
  ⟨by decide, by decide⟩

/-- Claim C9 (amended): constructing a fetcher with `field_map` absent
updates the shared class-level default map in place
(`default_field_map` returns the class dictionary itself, not a
copy): the class state after construction is the instance's own obs
map, every fetcher constructed afterwards without an explicit field
map observes the extension entries, and the table's contents change
whenever some extension entry binds a key to a value different from
the table's current binding (a non-empty extensions map that only
repeats existing entries leaves the contents unchanged). -/
theorem claim_C9_amended (classMap ext : List (String × String)) (k v : String)
    (hmem : (k, v) ∈ ext) (hnd : (ext.map Prod.fst).Nodup)
    (hne : dictGet classMap k ≠ some v) :
    (fetcherInitObsMap classMap none ext).2 = (fetcherInitObsMap classMap none ext).1 ∧
    dictGet ((fetcherInitObsMap ((fetcherInitObsMap classMap none ext).2) none []).1) k =
      some v ∧
    (fetcherInitObsMap classMap none ext).2 ≠ classMap := by
  have hget : dictGet (dictUpdate classMap ext) k = some v := by
    unfold dictUpdate
    exact foldSet_mem (fun p => p.2) ext k v hnd hmem classMap
  refine ⟨rfl, hget, ?_⟩
  intro heq
  have h2 : dictGet ((fetcherInitObsMap classMap none ext).2) k = some v := hget
  rw [heq] at h2
  exact hne h2

/-- Claim C9 witness: the amended theorem at the default table and the
fresh extension entry `(extraTemp1, temperature_low)`. -/
theorem claim_C9_witness :
    dictGet ((fetcherInitObsMap ((fetcherInitObsMap DEFAULT_FIELD_MAP none
      [("extraTemp1", "temperature_low")]).2) none []).1) ("extraTemp1") =
      some ("temperature_low") ∧
    (fetcherInitObsMap DEFAULT_FIELD_MAP none [("extraTemp1", "temperature_low")]).2 ≠
      DEFAULT_FIELD_MAP := by
  have h := claim_C9_amended DEFAULT_FIELD_MAP [("extraTemp1", "temperature_low")]
    "extraTemp1" "temperature_low" (by decide) (by decide) (by decide)
  exact ⟨h.2.1, h.2.2⟩

/-- Claim C10: in `_get_as_float`, every falsy present value — the
number 0 (hence also 0.0), the empty string, and a stored Python
`None` — yields null exactly as an absent key does; a truthy value
whose coercion raises `ValueError` yields null; a truthy value whose
coercion succeeds yields the coerced number; and the packet emitted
by `genLoopPackets` maps each data key to exactly this result. -/
theorem claim_C10 (data : List (String × Option Val)) (key : String) :
    (dictGet data key = some (some (Val.num 0)) → get_as_float data key = none) ∧
    (dictGet data key = some (some (Val.str "")) → get_as_float data key = none) ∧
    (dictGet data key = none → get_as_float data key = none) ∧
    (dictGet data key = some none → get_as_float data key = none) ∧
    (∀ v : Val, dictGet data key = some (some v) → truthy v = true →
      pyFloat v = Except.error ("ValueError") → get_as_float data key = none) ∧
    (∀ (v : Val) (q : ℚ), dictGet data key = some (some v) → truthy v = true →
      pyFloat v = Except.ok q → get_as_float data key = some q) ∧
    (∀ w : Option Val, (data.map Prod.fst).Nodup → (key, w) ∈ data →
      dictGet (genLoopPacket data) key = some (get_as_float data key)) := by
  have ht0 : truthy (Val.num 0) = false := rfl
  have hts : truthy (Val.str "") = false := rfl
  refine ⟨?_, ?_, ?_, ?_, ?_, ?_, ?_⟩
  · intro h
    simp [get_as_float, h, ht0]
  · intro h
    simp [get_as_float, h, hts]
  · intro h
    simp [get_as_float, h]
  · intro h
    simp [get_as_float, h]
  · intro v h htv hp
    simp [get_as_float, h, htv, hp]
  · intro v q h htv hp
    simp [get_as_float, h, htv, hp]
  · intro w hnd hmem
    unfold genLoopPacket
    exact foldSet_mem (fun p => get_as_float data p.1) data key w hnd hmem []

/-- Claim C10 witness: the zero reading, the empty string, an
unparsable string, and a parsable string. -/
theorem claim_C10_witness :
    get_as_float [("a", some (Val.num 0))] ("a") = none ∧
    get_as_float [("b", some (Val.str ""))] ("b") = none ∧
    get_as_float [("c", some (Val.str "oops"))] ("c") = none ∧
    get_as_float [("d", some (Val.num 7))] ("d") = some 7 := by
  refine ⟨(claim_C10 [("a", some (Val.num 0))] ("a")).1 (by decide),
    (claim_C10 [("b", some (Val.str ""))] ("b")).2.1 (by decide),
    (claim_C10 [("c", some (Val.str "oops"))] ("c")).2.2.2.2.1
      (Val.str "oops") (by decide) (by decide) rfl,
    (claim_C10 [("d", some (Val.num 7))] ("d")).2.2.2.2.2.1
      (Val.num 7) 7 (by decide) (by decide) rfl⟩

end RMI
